import Mathlib

/-!
Verification of the mock-trading market lifecycle engine.

This file is a shallow embedding of the Django backend under
`backend/market/` (models.py, views.py, serializers.py).  Money and
prices are rationals (`ℚ`), timestamps are integers (seconds), and the
ORM state is carried explicitly: each stateful endpoint is a function
returning an `Except` outcome together with the persisted post-state
(on an error path the persisted state is returned unchanged, matching
the request/transaction boundary of the source, except where the source
itself persists partial work before raising, which is modelled
faithfully).  Surrogate primary keys are omitted; rows are identified
by their value (trades are unique per (market, user) in the source).
-/

inductive Status where
  | CREATED
  | OPEN
  | CLOSED
  | SETTLED
deriving DecidableEq, Repr

inductive Position where
  | LONG
  | SHORT
deriving DecidableEq, Repr

/-- Modelled from the spec: the accounts application (its models.py is not
in the sources) owns a per-user profile with a single mutable decimal
balance ledger and a verification flag, exactly the two attributes the
market code reads and writes (`user.profile.balance`,
`user.profile.is_verified`). -/
structure UserProfile where
  balance : ℚ
  is_verified : Bool
deriving DecidableEq, Repr

/-- Django auth user as seen by the market code: id, the two admin flags,
and the optional accounts profile (`hasattr(user, "profile")`). -/
structure User where
  id : ℕ
  is_staff : Bool
  is_superuser : Bool
  profile : Option UserProfile
deriving DecidableEq, Repr

/-- SpreadBid row (models.py).  `bid_time` is assigned at creation. -/
structure SpreadBid where
  user : ℕ
  spread_low : ℤ
  spread_high : ℤ
  bid_time : ℤ
deriving DecidableEq, Repr

def SpreadBid.spread_width (b : SpreadBid) : ℤ := b.spread_high - b.spread_low

/-- Trade row (models.py), including the settlement output fields. -/
structure Trade where
  user : ℕ
  position : Position
  price : ℚ
  quantity : ℤ
  trade_time : ℤ
  settlement_amount : Option ℚ
  profit_loss : Option ℚ
  is_settled : Bool
  settled_at : Option ℤ
deriving DecidableEq, Repr

/-- Market row (models.py) together with its related spread-bid and trade
sets.  `trades` is kept in the related manager order (newest first,
`ordering = [-trade_time]`); `spread_bids` in bid-time order. -/
structure Market where
  premise : String
  unit_price : ℚ
  initial_spread : ℤ
  final_spread_low : Option ℤ
  final_spread_high : Option ℤ
  created_by : ℕ
  status : Status
  spread_bidding_open : ℤ
  spread_bidding_close_trading_open : ℤ
  trading_close : ℤ
  outcome : Option ℤ
  settlement_price : Option ℚ
  settled_at : Option ℤ
  market_maker : Option ℕ
  market_maker_spread_low : Option ℚ
  market_maker_spread_high : Option ℚ
  settlement_preview_calculated : Bool
  settlement_confirmed : Bool
  spread_bids : List SpreadBid
  trades : List Trade
deriving DecidableEq, Repr

def oneDay : ℤ := 86400

/-- Decimal.quantize(Decimal("0.01"), rounding=ROUND_UP): round to two
decimal places away from zero. -/
def quantizeUp2 (q : ℚ) : ℚ :=
  if 0 ≤ q then (Int.ceil (q * 100) : ℚ) / 100 else (Int.floor (q * 100) : ℚ) / 100

/-- Modelled from the spec: rounding to 2 decimal places with the
round-half-up rule the spec names, stated independently of the source so
the two rounding modes can be compared. -/
def roundHalfUp2 (q : ℚ) : ℚ :=
  (Int.floor (q * 100 + 1 / 2) : ℚ) / 100

def okB {α : Type} (e : Except String α) : Bool :=
  match e with
  | Except.ok _ => true
  | Except.error _ => false

def is_spread_bidding_active (m : Market) (now : ℤ) : Bool :=
  decide (m.spread_bidding_open ≤ now ∧ now ≤ m.spread_bidding_close_trading_open)

def is_trading_active (m : Market) (now : ℤ) : Bool :=
  decide (m.spread_bidding_close_trading_open ≤ now ∧ now ≤ m.trading_close ∧
    m.status = Status.OPEN)

def should_auto_close (m : Market) (now : ℤ) : Bool :=
  decide (m.status = Status.OPEN ∧ m.trading_close ≤ now)

def should_auto_activate (m : Market) (now : ℤ) : Bool :=
  decide (m.status = Status.CREATED ∧ m.spread_bidding_close_trading_open < now ∧
    m.spread_bids ≠ [] ∧ m.final_spread_low = none ∧ m.final_spread_high = none)

def should_delay_for_no_bids (m : Market) (now : ℤ) : Bool :=
  decide (m.status = Status.CREATED ∧ m.spread_bidding_close_trading_open < now ∧
    m.spread_bids = [] ∧ m.final_spread_low = none ∧ m.final_spread_high = none)

/-- Strict comparison on the sort key (spread_width, bid_time) used by
`best_spread_bid` and `get_user_best_bid`. -/
def bidKeyLt (a b : SpreadBid) : Bool :=
  decide (a.spread_width < b.spread_width ∨
    (a.spread_width = b.spread_width ∧ a.bid_time < b.bid_time))

/-- Python `min(bids, key=...)`: fold keeping the current minimum,
replacing it only on a strictly smaller key. -/
def pyMinBid (x : SpreadBid) (xs : List SpreadBid) : SpreadBid :=
  xs.foldl (fun acc y => if bidKeyLt y acc then y else acc) x

def best_spread_bid (bids : List SpreadBid) : Option SpreadBid :=
  match bids with
  | [] => none
  | x :: xs => some (pyMinBid x xs)

def Market.best_bid (m : Market) : Option SpreadBid :=
  best_spread_bid m.spread_bids

def current_best_spread_width (m : Market) : Option ℤ :=
  (best_spread_bid m.spread_bids).map SpreadBid.spread_width

def get_user_best_bid (m : Market) (uid : ℕ) : Option SpreadBid :=
  best_spread_bid (m.spread_bids.filter (fun b => b.user == uid))

/-- Market.can_user_trade (models.py): the advisory predicate; note the
verification check is skipped when the user has no profile
(`hasattr(user, "profile") and not user.profile.is_verified`). -/
def can_user_trade (m : Market) (u : User) (now : ℤ) : Bool × String :=
  if is_trading_active m now = false then
    (false, "Market is not open for trading")
  else if (match u.profile with
           | some p => !p.is_verified
           | none => false) then
    (false, "Only verified users can trade")
  else if m.market_maker = some u.id then
    (false, "Market makers cannot trade on their own markets")
  else if u.is_staff || u.is_superuser then
    (false, "Administrators cannot place trades")
  else if m.created_by = u.id then
    (false, "Market creators cannot trade on their own markets")
  else
    (true, "User can trade")

/-- Python truthiness of an optional integer column (None and 0 falsy). -/
def truthyZ (o : Option ℤ) : Bool :=
  match o with
  | none => false
  | some k => decide (k ≠ 0)

/-- Python truthiness of an optional decimal column (None and 0 falsy). -/
def truthyQ (o : Option ℚ) : Bool :=
  match o with
  | none => false
  | some q => decide (q ≠ 0)

/-- Final step of Market.save: for OPEN markets ensure final spread is set
from the market-maker spread (Django coerces the decimal into the integer
column; values are whole in every reachable path). -/
def fixFinals (m : Market) : Market :=
  if !truthyZ m.final_spread_low || !truthyZ m.final_spread_high then
    { m with
      final_spread_low := m.market_maker_spread_low.map Rat.floor
      final_spread_high := m.market_maker_spread_high.map Rat.floor }
  else m

/-- Net effect of the overridden Market.save on an existing row: first
`auto_close_if_time` (auto-close an OPEN market past `trading_close`),
then, for a market still OPEN, default the market maker to the creator
and require a usable spread, raising the no-default-spread
ValidationError otherwise. -/
def marketSaveHook (m : Market) (now : ℤ) : Except String Market :=
  let m1 := if should_auto_close m now then { m with status := Status.CLOSED } else m
  if m1.status = Status.OPEN then
    let m2 := if m1.market_maker.isNone then { m1 with market_maker := some m1.created_by }
              else m1
    if !truthyQ m2.market_maker_spread_low || !truthyQ m2.market_maker_spread_high then
      if truthyZ m2.final_spread_low && truthyZ m2.final_spread_high then
        Except.ok (fixFinals
          { m2 with
            market_maker_spread_low := m2.final_spread_low.map (fun k => (k : ℚ))
            market_maker_spread_high := m2.final_spread_high.map (fun k => (k : ℚ)) })
      else
        Except.error "Cannot open market without final spread values from actual bids"
    else
      Except.ok (fixFinals m2)
  else
    Except.ok m1

/-- Market.auto_activate_market: pick the winning bid, set the final
spread and market-maker fields, promote the winner to `created_by`, set
status OPEN and save.  On success the winning bid is returned; any
failure leaves the persisted state unchanged. -/
def auto_activate_market (m : Market) (now : ℤ) : Except String SpreadBid × Market :=
  if should_auto_activate m now = false then
    (Except.error "Market is not eligible for auto-activation", m)
  else
    match best_spread_bid m.spread_bids with
    | none =>
      (Except.error "No bids available for activation. Please place at least one spread bid before activation.", m)
    | some wb =>
      let m1 : Market :=
        { m with
          final_spread_low := some wb.spread_low
          final_spread_high := some wb.spread_high
          created_by := wb.user
          market_maker := some wb.user
          market_maker_spread_low := some (wb.spread_low : ℚ)
          market_maker_spread_high := some (wb.spread_high : ℚ)
          status := Status.OPEN }
      match marketSaveHook m1 now with
      | Except.ok m2 => (Except.ok wb, m2)
      | Except.error e => (Except.error ("Error during activation: " ++ e), m)

/-- Market.delay_market_for_no_bids: shift both window timestamps by one
day (the save hook is a no-op on a CREATED market). -/
def delay_market_for_no_bids (m : Market) (now : ℤ) : Except String Unit × Market :=
  if should_delay_for_no_bids m now = false then
    (Except.error "Market is not eligible for delay", m)
  else
    (Except.ok (),
     { m with
       spread_bidding_close_trading_open := m.spread_bidding_close_trading_open + oneDay
       trading_close := m.trading_close + oneDay })

/-- Iterated delay: apply `delay_market_for_no_bids` at each successive
time, returning the final market only when every step succeeded. -/
def delaysOk (m : Market) (ts : List ℤ) : Option Market :=
  match ts with
  | [] => some m
  | t :: rest =>
    match delay_market_for_no_bids m t with
    | (Except.ok _, m1) => delaysOk m1 rest
    | (Except.error _, _) => none

/-- Trade.clean (models.py): save-time validation of a trade row, run on
every Trade.save. -/
def trade_clean (m : Market) (tuser : User) (pos : Position) (price : ℚ)
    (qty : ℤ) (now : ℤ) : Except String Unit :=
  if is_trading_active m now = false then
    Except.error "Market is not open for trading"
  else if some tuser.id = m.market_maker then
    Except.error "Market makers cannot trade on their own markets"
  else if tuser.is_staff || tuser.is_superuser then
    Except.error "Administrators cannot place trades"
  else if tuser.id = m.created_by then
    Except.error "Market creators cannot trade on their own markets"
  else if (match m.market_maker_spread_low, m.market_maker_spread_high with
           | some lo, some hi =>
             if pos = Position.LONG then decide (|price - hi| > 1 / 100)
             else decide (|price - lo| > 1 / 100)
           | _, _ => false) then
    Except.error "Trade price must match the market maker spread edge for the position"
  else if qty ≤ 0 then
    Except.error "Quantity must be positive"
  else
    Except.ok ()

/-- MarketViewSet.place_trade (views.py): guard checks, derived price,
balance check, then Trade.objects.create (which runs Trade.clean and then
hits the unique (market, user) constraint on insert), then the balance
debit.  The caught-exception paths are rendered with the handler prefix
"Error placing trade: ". -/
def place_trade (m : Market) (u : User) (pos : Position) (qty : ℤ) (now : ℤ) :
    Except String Trade × Market × User :=
  if m.status ≠ Status.OPEN then
    (Except.error "Market is not open for trading", m, u)
  else if m.market_maker.isNone then
    (Except.error "Market does not have a market maker yet", m, u)
  else if m.market_maker = some u.id then
    (Except.error "Market makers cannot trade on their own markets", m, u)
  else if qty ≤ 0 then
    (Except.error "Quantity must be positive", m, u)
  else
    match (match pos with
           | Position.LONG => m.market_maker_spread_high
           | Position.SHORT => m.market_maker_spread_low) with
    | none => (Except.error "Error placing trade: invalid price", m, u)
    | some price =>
      let total_cost : ℚ := price * (qty : ℚ)
      match u.profile with
      | none => (Except.error "Error placing trade: user has no profile", m, u)
      | some prof =>
        if prof.balance < total_cost then
          (Except.error "Insufficient balance", m, u)
        else
          match trade_clean m u pos price qty now with
          | Except.error e => (Except.error ("Error placing trade: " ++ e), m, u)
          | Except.ok _ =>
            if m.trades.any (fun t => t.user == u.id) then
              (Except.error "Error placing trade: UNIQUE constraint failed: market_trade.market_id, market_trade.user_id", m, u)
            else
              let tr : Trade :=
                { user := u.id, position := pos, price := price, quantity := qty,
                  trade_time := now, settlement_amount := none, profit_loss := none,
                  is_settled := false, settled_at := none }
              (Except.ok tr,
               { m with trades := tr :: m.trades },
               { u with profile := some { prof with balance := prof.balance - total_cost } })

/-- MarketViewSet.cancel_trade (views.py): delete the trade while trading
is active; the user object (and hence the balance) is not touched. -/
def cancel_trade (m : Market) (u : User) (now : ℤ) :
    Except String Unit × Market × User :=
  if is_trading_active m now = false then
    (Except.error "Cannot cancel trade - market is closed", m, u)
  else
    match m.trades.find? (fun t => t.user == u.id) with
    | none => (Except.error "No trade found for this user on this market", m, u)
    | some _ =>
      (Except.ok (), { m with trades := m.trades.filter (fun t => !(t.user == u.id)) }, u)

/-- Market.set_settlement_price (models.py). -/
def set_settlement_price (m : Market) (price : ℚ) : Except String ℚ × Market :=
  if m.status ≠ Status.CLOSED then
    (Except.error "Can only set settlement price on CLOSED markets", m)
  else if m.settlement_price.isSome then
    (Except.error "Settlement price has already been set", m)
  else if ¬((1 : ℚ) / 100 ≤ price ∧ price ≤ (99999999 : ℚ) / 100) then
    (Except.error "Settlement price must be between 0.01 and 999999.99", m)
  else
    (Except.ok (quantizeUp2 price),
     { m with
       settlement_price := some (quantizeUp2 price)
       settlement_preview_calculated := false
       settlement_confirmed := false })

/-- Per-trade P&L of Market.calculate_settlement_preview. -/
def trade_pnl (s : ℚ) (t : Trade) : ℚ :=
  if t.position = Position.LONG then quantizeUp2 (s - t.price)
  else quantizeUp2 (t.price - s)

structure PreviewEntry where
  user : ℕ
  position : Position
  trade_price : ℚ
  profit_loss : ℚ
deriving DecidableEq, Repr

structure SettlementPreview where
  settlement_price : ℚ
  trades : List PreviewEntry
  market_maker_impact : ℚ
deriving DecidableEq, Repr

def previewEntry (s : ℚ) (t : Trade) : PreviewEntry :=
  { user := t.user, position := t.position, trade_price := t.price,
    profit_loss := trade_pnl s t }

/-- Market.calculate_settlement_preview (models.py): per-trade P&L, the
running negated total for the market maker, and the preview flag set. -/
def calculate_settlement_preview (m : Market) :
    Except String SettlementPreview × Market :=
  match m.settlement_price with
  | none => (Except.error "Settlement price must be set before calculating preview", m)
  | some s =>
    let entries := m.trades.map (previewEntry s)
    let mm_total := entries.foldl (fun acc e => acc - e.profit_loss) 0
    (Except.ok
      { settlement_price := s, trades := entries,
        market_maker_impact := quantizeUp2 mm_total },
     { m with settlement_preview_calculated := true })

def usersFind (users : List User) (uid : ℕ) : Option User :=
  users.find? (fun usr => usr.id == uid)

def applyDelta (users : List User) (uid : ℕ) (d : ℚ) : List User :=
  users.map (fun usr =>
    if usr.id == uid then
      { usr with profile := usr.profile.map (fun p => { p with balance := p.balance + d }) }
    else usr)

/-- The balance-and-trade loop of Market.execute_settlement.  Per trade:
look the user up, credit the P&L to the profile balance (persisted
immediately via profile.save), then trade.save, whose overridden save
re-runs Trade.clean against the current (CLOSED) market and therefore
raises, aborting the loop after the balance write. -/
def settleTrades (m1 : Market) (s : ℚ) (now : ℤ) (users : List User) :
    List Trade → Except String Unit × List Trade × List User
  | [] => (Except.ok (), [], users)
  | t :: ts =>
    match usersFind users t.user with
    | none => (Except.error "User matching query does not exist.", t :: ts, users)
    | some usr =>
      let users1 := if usr.profile.isSome then applyDelta users t.user (trade_pnl s t) else users
      match trade_clean m1 usr t.position t.price t.quantity now with
      | Except.error e => (Except.error e, t :: ts, users1)
      | Except.ok _ =>
        let tSettled : Trade :=
          { t with settlement_amount := some s, profit_loss := some (trade_pnl s t),
                   is_settled := true, settled_at := some now }
        match settleTrades m1 s now users1 ts with
        | (Except.error e, rest, users2) => (Except.error e, tSettled :: rest, users2)
        | (Except.ok _, rest, users2) => (Except.ok (), tSettled :: rest, users2)

/-- Market.execute_settlement (models.py): the three guards, the preview
recomputation, the per-trade loop, the market-maker compensation and the
final status change.  The persisted post-state is returned alongside the
outcome; failures after the guards keep whatever the loop persisted. -/
def execute_settlement (m : Market) (users : List User) (confirmed_by_admin : Bool)
    (now : ℤ) : Except String SettlementPreview × Market × List User :=
  if !m.settlement_preview_calculated then
    (Except.error "Must calculate settlement preview before executing", m, users)
  else if !confirmed_by_admin then
    (Except.error "Admin confirmation required for settlement execution", m, users)
  else if m.status = Status.SETTLED then
    (Except.error "Market already settled", m, users)
  else
    match calculate_settlement_preview m with
    | (Except.error e, _) => (Except.error e, m, users)
    | (Except.ok pv, m1) =>
      match settleTrades m1 pv.settlement_price now users m1.trades with
      | (Except.error e, tradesPartial, users1) =>
        (Except.error e, { m1 with trades := tradesPartial }, users1)
      | (Except.ok _, tradesDone, users1) =>
        let users2 :=
          match m1.market_maker with
          | some mk =>
            match usersFind users1 mk with
            | some usr =>
              if usr.profile.isSome then applyDelta users1 mk pv.market_maker_impact
              else users1
            | none => users1
          | none => users1
        (Except.ok pv,
         { m1 with trades := tradesDone, status := Status.SETTLED,
                   settled_at := some now, settlement_confirmed := true },
         users2)

/-- SpreadBidCreateSerializer.validate (serializers.py).  After the
verification and status guards, the window check reads
`market.spread_bidding_close`, an attribute the current Market model does
not define (the column is `spread_bidding_close_trading_open`, and no
property of that name exists anywhere).  Python evaluates the chained
comparison `spread_bidding_open <= now <= market.spread_bidding_close`
left to right: when `spread_bidding_open <= now` is False the chain
short-circuits to False without reading the missing attribute and the
ValidationError is raised; otherwise the attribute access raises
AttributeError (message paraphrased below without quote characters),
surfaced as a server error.  The remaining checks of the source (spread
values, tightness against the current best width, tightness against the
best previous bid of the bidder) are therefore unreachable, so no spread
bid is ever accepted through this serializer. -/
def validate_spread_bid (m : Market) (u : User) (low high : ℤ) (now : ℤ) :
    Except String Unit :=
  if (match u.profile with
      | none => true
      | some p => !p.is_verified) then
    Except.error "Only verified users can place spread bids"
  else if m.status ≠ Status.CREATED then
    Except.error "Can only bid on markets in CREATED state"
  else if now < m.spread_bidding_open then
    Except.error "Spread bidding is not currently active for this market"
  else
    Except.error "AttributeError: Market object has no attribute spread_bidding_close"

/-- SpreadBid.clean (models.py), run by SpreadBid.save. -/
def spread_bid_clean (m : Market) (u : User) (low high : ℤ) (now : ℤ) :
    Except String Unit :=
  if low ≤ 0 then
    Except.error "Spread low must be a positive number"
  else if high ≤ 0 then
    Except.error "Spread high must be a positive number"
  else if low ≥ high then
    Except.error "Spread low must be less than spread high"
  else if high - low ≤ 0 then
    Except.error "Spread width must be positive"
  else if is_spread_bidding_active m now = false then
    Except.error "Spread bidding is not currently active for this market"
  else if u.is_staff || u.is_superuser then
    Except.error "Administrators cannot place spread bids"
  else if u.id = m.created_by then
    Except.error "Market creators cannot bid on their own markets"
  else
    Except.ok ()

/-- MarketViewSet.place_spread_bid (views.py): serializer validation, then
SpreadBid.save (clean plus insert). -/
def place_spread_bid (m : Market) (u : User) (low high : ℤ) (now : ℤ) :
    Except String SpreadBid × Market :=
  match validate_spread_bid m u low high now with
  | Except.error e => (Except.error e, m)
  | Except.ok _ =>
    match spread_bid_clean m u low high now with
    | Except.error e => (Except.error e, m)
    | Except.ok _ =>
      let b : SpreadBid := { user := u.id, spread_low := low, spread_high := high, bid_time := now }
      (Except.ok b, { m with spread_bids := m.spread_bids ++ [b] })

lemma bidKeyLt_irrefl (a : SpreadBid) : bidKeyLt a a = false := by
  simp [bidKeyLt]

lemma bidKeyLt_chain1 {z x r : SpreadBid} (h1 : bidKeyLt z x = true)
    (h2 : bidKeyLt x r = true) : bidKeyLt z r = true := by
  simp only [bidKeyLt, decide_eq_true_eq] at h1 h2 ⊢
  omega

lemma bidKeyLt_chain2 {z x r : SpreadBid} (h1 : bidKeyLt z x = false)
    (h2 : bidKeyLt z r = true) : bidKeyLt x r = true := by
  simp only [bidKeyLt, decide_eq_false_iff_not, decide_eq_true_eq] at h1 h2 ⊢
  omega

lemma pyMinBid_spec (x : SpreadBid) (xs : List SpreadBid) :
    (pyMinBid x xs = x ∨ pyMinBid x xs ∈ xs) ∧
    ∀ y, (y = x ∨ y ∈ xs) → bidKeyLt y (pyMinBid x xs) = false := by
  induction xs generalizing x with
  | nil =>
    refine ⟨Or.inl rfl, ?_⟩
    intro y hy
    rcases hy with h | h
    · subst h; exact bidKeyLt_irrefl y
    · cases h
  | cons z zs ih =>
    have hstep : pyMinBid x (z :: zs) = pyMinBid (if bidKeyLt z x then z else x) zs := rfl
    by_cases hzx : bidKeyLt z x = true
    · rw [hstep, if_pos hzx]
      obtain ⟨hmem, hmin⟩ := ih z
      constructor
      · right
        rcases hmem with h | h
        · rw [h]; exact List.mem_cons_self z zs
        · exact List.mem_cons_of_mem z h
      · intro y hy
        rcases hy with h | h
        · subst h
          by_contra hk
          rw [Bool.not_eq_false] at hk
          have := bidKeyLt_chain1 hzx hk
          have hz := hmin z (Or.inl rfl)
          rw [hz] at this
          exact Bool.false_ne_true this
        · rcases List.mem_cons.mp h with h1 | h1
          · rw [h1]
            exact hmin z (Or.inl rfl)
          · exact hmin y (Or.inr h1)
    · rw [Bool.not_eq_true] at hzx
      rw [hstep, if_neg (by simp [hzx])]
      obtain ⟨hmem, hmin⟩ := ih x
      constructor
      · rcases hmem with h | h
        · exact Or.inl h
        · exact Or.inr (List.mem_cons_of_mem z h)
      · intro y hy
        rcases hy with h | h
        · exact hmin y (Or.inl h)
        · rcases List.mem_cons.mp h with h1 | h1
          · rw [h1]
            by_contra hk
            rw [Bool.not_eq_false] at hk
            have := bidKeyLt_chain2 hzx hk
            have hx := hmin x (Or.inl rfl)
            rw [hx] at this
            exact Bool.false_ne_true this
          · exact hmin y (Or.inr h1)

lemma best_spread_bid_spec {bids : List SpreadBid} {b : SpreadBid}
    (h : best_spread_bid bids = some b) :
    b ∈ bids ∧ ∀ y ∈ bids,
      b.spread_width ≤ y.spread_width ∧
      (y.spread_width = b.spread_width → b.bid_time ≤ y.bid_time) := by
  match bids, h with
  | x :: xs, h =>
    have hb : pyMinBid x xs = b := by
      simpa [best_spread_bid] using h
    obtain ⟨hmem, hmin⟩ := pyMinBid_spec x xs
    rw [hb] at hmem hmin
    constructor
    · rcases hmem with h1 | h1
      · rw [h1]; exact List.mem_cons_self x xs
      · exact List.mem_cons_of_mem x h1
    · intro y hy
      have hy2 : y = x ∨ y ∈ xs := by
        rcases List.mem_cons.mp hy with h1 | h1
        · exact Or.inl h1
        · exact Or.inr h1
      have := hmin y hy2
      simp only [bidKeyLt, decide_eq_false_iff_not] at this
      constructor
      · omega
      · intro hw; omega

lemma foldl_sub_eq (l : List PreviewEntry) (a : ℚ) :
    l.foldl (fun acc e => acc - e.profit_loss) a =
      a - (l.map PreviewEntry.profit_loss).sum := by
  induction l generalizing a with
  | nil => simp
  | cons e es ih =>
    simp only [List.foldl_cons, List.map_cons, List.sum_cons, ih]
    ring

lemma quantizeUp2_cent (k : ℤ) : quantizeUp2 ((k : ℚ) / 100) = (k : ℚ) / 100 := by
  unfold quantizeUp2
  have h : ((k : ℚ) / 100) * 100 = (k : ℚ) := div_mul_cancel₀ _ (by norm_num)
  rw [h, Int.ceil_intCast, Int.floor_intCast]
  split <;> rfl

lemma quantizeUp2_isCent (q : ℚ) : ∃ k : ℤ, quantizeUp2 q = (k : ℚ) / 100 := by
  unfold quantizeUp2
  split
  · exact ⟨Int.ceil (q * 100), rfl⟩
  · exact ⟨Int.floor (q * 100), rfl⟩

lemma sum_cents (l : List ℚ) (h : ∀ q ∈ l, ∃ k : ℤ, q = (k : ℚ) / 100) :
    ∃ k : ℤ, l.sum = (k : ℚ) / 100 := by
  induction l with
  | nil => exact ⟨0, by simp⟩
  | cons q qs ih =>
    obtain ⟨k1, hk1⟩ := h q (List.mem_cons_self q qs)
    obtain ⟨k2, hk2⟩ := ih (fun r hr => h r (List.mem_cons_of_mem q hr))
    refine ⟨k1 + k2, ?_⟩
    simp only [List.sum_cons, hk1, hk2]
    push_cast
    ring

lemma or_false_parts {a b : Bool} (h : ¬(a || b) = true) : a = false ∧ b = false := by
  simp only [Bool.or_eq_true] at h
  push_neg at h
  exact ⟨(Bool.not_eq_true _).mp h.1, (Bool.not_eq_true _).mp h.2⟩

lemma trade_clean_ok {m : Market} {u : User} {pos : Position} {price : ℚ}
    {qty now : ℤ} {v : Unit}
    (h : trade_clean m u pos price qty now = Except.ok v) :
    is_trading_active m now = true ∧ m.market_maker ≠ some u.id ∧
    u.is_staff = false ∧ u.is_superuser = false ∧ m.created_by ≠ u.id := by
  unfold trade_clean at h
  split_ifs at h with h1 h2 h3 h4 h5 h6
  all_goals
    exact ⟨(Bool.not_eq_false _).mp h1, fun hc => h2 hc.symm,
      (or_false_parts h3).1, (or_false_parts h3).2, fun hc => h4 hc.symm⟩

lemma marketSaveHook_noop (m : Market) (now : ℤ)
    (hst : m.status = Status.OPEN)
    (hntc : now < m.trading_close)
    (mk : ℕ) (hmk : m.market_maker = some mk)
    (lo : ℚ) (hlo : m.market_maker_spread_low = some lo) (hlo0 : lo ≠ 0)
    (hi : ℚ) (hhi : m.market_maker_spread_high = some hi) (hhi0 : hi ≠ 0)
    (flo : ℤ) (hflo : m.final_spread_low = some flo) (hflo0 : flo ≠ 0)
    (fhi : ℤ) (hfhi : m.final_spread_high = some fhi) (hfhi0 : fhi ≠ 0) :
    marketSaveHook m now = Except.ok m := by
  have hac : should_auto_close m now = false := by
    simp only [should_auto_close, decide_eq_false_iff_not]
    intro hcon
    omega
  simp [marketSaveHook, fixFinals, hac, hst, hmk, hlo, hhi, hflo, hfhi,
    truthyQ, truthyZ, hlo0, hhi0, hflo0, hfhi0]

lemma activation_spec (m : Market) (now : ℤ)
    (hs : should_auto_activate m now = true)
    (hpos : ∀ b ∈ m.spread_bids, 0 < b.spread_low ∧ b.spread_low < b.spread_high)
    (htc : now < m.trading_close) :
    ∃ wb, best_spread_bid m.spread_bids = some wb ∧
      auto_activate_market m now =
        (Except.ok wb,
         { m with
           final_spread_low := some wb.spread_low
           final_spread_high := some wb.spread_high
           created_by := wb.user
           market_maker := some wb.user
           market_maker_spread_low := some (wb.spread_low : ℚ)
           market_maker_spread_high := some (wb.spread_high : ℚ)
           status := Status.OPEN }) := by
  have hne : m.spread_bids ≠ [] := by
    simp only [should_auto_activate, decide_eq_true_eq] at hs
    exact hs.2.2.1
  obtain ⟨wb, hwb⟩ : ∃ wb, best_spread_bid m.spread_bids = some wb := by
    cases hbids : m.spread_bids with
    | nil => exact absurd hbids hne
    | cons x xs => exact ⟨pyMinBid x xs, by simp [best_spread_bid, hbids]⟩
  have hmem := (best_spread_bid_spec hwb).1
  obtain ⟨hl, hlh⟩ := hpos wb hmem
  refine ⟨wb, hwb, ?_⟩
  have hhook :
      marketSaveHook
        { m with
          final_spread_low := some wb.spread_low
          final_spread_high := some wb.spread_high
          created_by := wb.user
          market_maker := some wb.user
          market_maker_spread_low := some (wb.spread_low : ℚ)
          market_maker_spread_high := some (wb.spread_high : ℚ)
          status := Status.OPEN } now = Except.ok
        { m with
          final_spread_low := some wb.spread_low
          final_spread_high := some wb.spread_high
          created_by := wb.user
          market_maker := some wb.user
          market_maker_spread_low := some (wb.spread_low : ℚ)
          market_maker_spread_high := some (wb.spread_high : ℚ)
          status := Status.OPEN } := by
    refine marketSaveHook_noop _ now rfl (by simpa using htc) wb.user rfl
      (wb.spread_low : ℚ) rfl (by exact_mod_cast (by omega : (wb.spread_low : ℤ) ≠ 0))
      (wb.spread_high : ℚ) rfl (by exact_mod_cast (by omega : (wb.spread_high : ℤ) ≠ 0))
      wb.spread_low rfl (by omega) wb.spread_high rfl (by omega)
  unfold auto_activate_market
  rw [if_neg (by simp [hs]), hwb]
  simp only [hhook]

lemma delaysOk_shift (ts : List ℤ) : ∀ m m', delaysOk m ts = some m' →
    m'.spread_bidding_close_trading_open =
      m.spread_bidding_close_trading_open + (ts.length : ℤ) * oneDay ∧
    m'.trading_close = m.trading_close + (ts.length : ℤ) * oneDay := by
  induction ts with
  | nil =>
    intro m m' h
    simp only [delaysOk, Option.some.injEq] at h
    subst h
    simp
  | cons t rest ih =>
    intro m m' h
    unfold delaysOk at h
    by_cases hc : should_delay_for_no_bids m t = true
    · rw [show delay_market_for_no_bids m t =
          (Except.ok (),
           { m with
             spread_bidding_close_trading_open := m.spread_bidding_close_trading_open + oneDay
             trading_close := m.trading_close + oneDay })
          from by unfold delay_market_for_no_bids; rw [if_neg (by simp [hc])]] at h
      obtain ⟨h1, h2⟩ := ih _ _ h
      constructor
      · rw [h1]
        simp
        ring
      · rw [h2]
        simp
        ring
    · rw [show delay_market_for_no_bids m t = (Except.error "Market is not eligible for delay", m)
          from by unfold delay_market_for_no_bids; rw [if_pos (by simpa using hc)]] at h
      simp at h

lemma calculate_preview_spec (m : Market) (s : ℚ) (h : m.settlement_price = some s) :
    ∃ pv, calculate_settlement_preview m =
        (Except.ok pv, { m with settlement_preview_calculated := true }) ∧
      pv.settlement_price = s ∧
      pv.trades = m.trades.map (previewEntry s) ∧
      pv.market_maker_impact = -((pv.trades.map PreviewEntry.profit_loss).sum) := by
  refine ⟨{ settlement_price := s, trades := m.trades.map (previewEntry s),
            market_maker_impact := quantizeUp2
              (((m.trades.map (previewEntry s))).foldl (fun acc e => acc - e.profit_loss) 0) },
    ?_, rfl, rfl, ?_⟩
  · unfold calculate_settlement_preview
    rw [h]
  · have hc : ∀ q ∈ (m.trades.map (previewEntry s)).map PreviewEntry.profit_loss,
        ∃ k : ℤ, q = (k : ℚ) / 100 := by
      intro q hq
      simp only [List.map_map, List.mem_map, Function.comp] at hq
      obtain ⟨t, _, rfl⟩ := hq
      simp only [previewEntry]
      unfold trade_pnl
      split
      · exact quantizeUp2_isCent _
      · exact quantizeUp2_isCent _
    obtain ⟨k, hk⟩ := sum_cents _ hc
    rw [foldl_sub_eq, hk, zero_sub]
    rw [show -((k : ℚ) / 100) = ((-k : ℤ) : ℚ) / 100 by push_cast; ring]
    rw [quantizeUp2_cent]

def baseMarket : Market :=
  { premise := "Will it rain tomorrow", unit_price := 1, initial_spread := 20,
    final_spread_low := none, final_spread_high := none, created_by := 100,
    status := Status.CREATED, spread_bidding_open := 0,
    spread_bidding_close_trading_open := 1000, trading_close := 2000,
    outcome := none, settlement_price := none, settled_at := none,
    market_maker := none, market_maker_spread_low := none,
    market_maker_spread_high := none, settlement_preview_calculated := false,
    settlement_confirmed := false, spread_bids := [], trades := [] }

def openMkt : Market :=
  { baseMarket with
    status := Status.OPEN
    final_spread_low := some 40
    final_spread_high := some 60
    market_maker := some 50
    market_maker_spread_low := some 40
    market_maker_spread_high := some 60 }

def u2 : User :=
  { id := 2, is_staff := false, is_superuser := false,
    profile := some { balance := 1000, is_verified := true } }

def cu8 : User :=
  { id := 2, is_staff := false, is_superuser := false,
    profile := some { balance := 1000, is_verified := false } }

def mm50 : User :=
  { id := 50, is_staff := false, is_superuser := false,
    profile := some { balance := 500, is_verified := true } }

def t1 : Trade :=
  { user := 2, position := Position.LONG, price := 60, quantity := 1,
    trade_time := 1200, settlement_amount := none, profit_loss := none,
    is_settled := false, settled_at := none }

def t6 : Trade :=
  { user := 2, position := Position.LONG, price := 60, quantity := 1,
    trade_time := 1500, settlement_amount := none, profit_loss := none,
    is_settled := false, settled_at := none }

def t7 : Trade :=
  { user := 2, position := Position.LONG, price := 55, quantity := 1,
    trade_time := 1500, settlement_amount := none, profit_loss := none,
    is_settled := false, settled_at := none }

def tS : Trade :=
  { user := 3, position := Position.SHORT, price := 45, quantity := 2,
    trade_time := 1600, settlement_amount := none, profit_loss := none,
    is_settled := false, settled_at := none }

def bid1 : SpreadBid := { user := 2, spread_low := 45, spread_high := 55, bid_time := 10 }

def bid3 : SpreadBid := { user := 3, spread_low := 40, spread_high := 60, bid_time := 10 }

def cm1 : Market := { openMkt with trades := [t1] }

def cm2 : Market :=
  { baseMarket with
    status := Status.CLOSED
    settlement_price := some 60
    market_maker := some 50
    trades := [t7, tS] }

def cm3 : Market := { baseMarket with status := Status.CLOSED }

def cm3w : Market :=
  { cm3 with
    settlement_price := some (quantizeUp2 60)
    settlement_preview_calculated := false
    settlement_confirmed := false }

def cm4 : Market := { baseMarket with spread_bids := [bid1] }

def cm6p : Market := { openMkt with trades := [t6] }

def cu6p : User :=
  { u2 with profile := some ({ balance := 940, is_verified := true } : UserProfile) }

def cm6c : Market := { openMkt with trades := ([] : List Trade) }

def cm7 : Market :=
  { baseMarket with
    status := Status.CLOSED
    settlement_price := some 60
    settlement_preview_calculated := true
    final_spread_low := some 45
    final_spread_high := some 55
    market_maker := some 50
    market_maker_spread_low := some 45
    market_maker_spread_high := some 55
    trades := [t7] }

def us7 : List User := [u2, mm50]

def balanceOf (users : List User) (uid : ℕ) : Option ℚ :=
  (usersFind users uid).bind (fun usr => usr.profile.map UserProfile.balance)

def cm10 : Market := { baseMarket with spread_bids := [bid3] }

def dm5 : Market := baseMarket

def dm5d : Market :=
  { dm5 with
    spread_bidding_close_trading_open := dm5.spread_bidding_close_trading_open + oneDay
    trading_close := dm5.trading_close + oneDay }

def dm5bid : Market := { baseMarket with spread_bids := [bid1] }

def dm5dd : Market :=
  { dm5 with
    spread_bidding_close_trading_open := 1000 + 2 * oneDay
    trading_close := 2000 + 2 * oneDay }

lemma place_trade_openMkt_u2 :
    place_trade openMkt u2 Position.LONG 1 1500 =
      (Except.ok t6, cm6p, cu6p) := by
  norm_num [place_trade, trade_clean, is_trading_active, openMkt, baseMarket, u2,
    t6, cm6p, cu6p]

/-- C1: a second trade placement by a user who already holds a trade on the
market is rejected by the unique (market, user) constraint inside
Trade.objects.create: the endpoint returns an error and leaves the market
and the user (hence the existing trade and the balance) unchanged, instead
of updating the existing position as the claim and the repo API test
expect. -/
theorem claim1_second_placement_rejected (m : Market) (u : User) (pos : Position)
    (qty now : ℤ) (h : m.trades.any (fun t => t.user == u.id) = true) :
    okB (place_trade m u pos qty now).1 = false ∧
    (place_trade m u pos qty now).2.1 = m ∧
    (place_trade m u pos qty now).2.2 = u := by
  unfold place_trade
  repeat' split
  all_goals try exact ⟨rfl, rfl, rfl⟩
  all_goals try simp_all
  all_goals (split <;> exact ⟨rfl, rfl, rfl⟩)

/-- C1 witness: a user with an existing LONG trade on an OPEN market sends
a second placement; it is rejected and nothing changes. -/
theorem claim1_witness :
    cm1.trades.any (fun t => t.user == u2.id) = true ∧
    okB (place_trade cm1 u2 Position.SHORT 1 1500).1 = false ∧
    (place_trade cm1 u2 Position.SHORT 1 1500).2.1 = cm1 ∧
    (place_trade cm1 u2 Position.SHORT 1 1500).2.2 = u2 := by
  have h := claim1_second_placement_rejected cm1 u2 Position.SHORT 1 1500 (by decide)
  exact ⟨by decide, h.1, h.2.1, h.2.2⟩

/-- C2: on a market with settlement price s, the preview maps every trade
to its P&L (LONG: s minus trade price, SHORT: trade price minus s, each
rounded to 2 decimals) and the reported market-maker impact is exactly the
negation of the sum of all trader P&L values of the preview. -/
theorem claim2_preview_pnl_impact (m : Market) (s : ℚ)
    (h : m.settlement_price = some s) :
    ∃ pv, calculate_settlement_preview m =
        (Except.ok pv, { m with settlement_preview_calculated := true }) ∧
      pv.settlement_price = s ∧
      pv.trades = m.trades.map (previewEntry s) ∧
      pv.market_maker_impact = -((pv.trades.map PreviewEntry.profit_loss).sum) :=
  calculate_preview_spec m s h

/-- C2 witness: a settlement preview at price 60 over one LONG trade at 55
and one SHORT trade at 45. -/
theorem claim2_witness :
    cm2.settlement_price = some 60 ∧
    (∃ pv, calculate_settlement_preview cm2 =
        (Except.ok pv, { cm2 with settlement_preview_calculated := true }) ∧
      pv.settlement_price = 60 ∧
      pv.trades = cm2.trades.map (previewEntry 60) ∧
      pv.market_maker_impact = -((pv.trades.map PreviewEntry.profit_loss).sum)) :=
  ⟨rfl, claim2_preview_pnl_impact cm2 60 rfl⟩

/-- C3 (amended): setting the settlement price succeeds exactly for prices
in [0.01, 999999.99] on a CLOSED market whose price is unset, and stores
the price quantized to 2 decimal places with ROUND_UP (away from zero);
the settlement preview rounds each P&L with the same ROUND_UP
quantization, not round-half-up. -/
theorem claim3_price_validation_round_up (m : Market) (price : ℚ) :
    (okB (set_settlement_price m price).1 = true ↔
      (m.status = Status.CLOSED ∧ m.settlement_price = none ∧
       (1 : ℚ) / 100 ≤ price ∧ price ≤ (99999999 : ℚ) / 100)) ∧
    (∀ p m', set_settlement_price m price = (Except.ok p, m') →
      p = quantizeUp2 price ∧ m'.settlement_price = some (quantizeUp2 price) ∧
      m'.settlement_preview_calculated = false ∧ m'.settlement_confirmed = false) ∧
    (∀ s, m.settlement_price = some s →
      ∀ pv m2, calculate_settlement_preview m = (Except.ok pv, m2) →
        pv.trades.map PreviewEntry.profit_loss =
          m.trades.map (fun t =>
            if t.position = Position.LONG then quantizeUp2 (s - t.price)
            else quantizeUp2 (t.price - s))) := by
  refine ⟨⟨?_, ?_⟩, ?_, ?_⟩
  · intro hok
    unfold set_settlement_price okB at hok
    split_ifs at hok with h1 h2 h3
    all_goals try simp at hok
    refine ⟨not_not.mp h1, ?_, h3.1, h3.2⟩
    cases hsp : m.settlement_price with
    | none => rfl
    | some sp => rw [hsp] at h2; simp at h2
  · intro hc
    obtain ⟨hst, hnone, hr1, hr2⟩ := hc
    unfold set_settlement_price okB
    rw [if_neg (by simp [hst]), if_neg (by simp [hnone]),
      if_neg (by rw [not_not]; exact ⟨hr1, hr2⟩)]
  · intro p m' heq
    unfold set_settlement_price at heq
    split_ifs at heq with h1 h2 h3
    all_goals simp only [Prod.mk.injEq] at heq
    all_goals try exact Except.noConfusion heq.1
    obtain ⟨hp, hm⟩ := heq
    obtain rfl : p = quantizeUp2 price := (Except.ok.inj hp).symm
    subst hm
    exact ⟨rfl, rfl, rfl, rfl⟩
  · intro s hsp pv m2 heq
    obtain ⟨pv0, heq0, _, htr, _⟩ := calculate_preview_spec m s hsp
    rw [heq0] at heq
    simp only [Prod.mk.injEq, Except.ok.injEq] at heq
    obtain ⟨hpv, _⟩ := heq
    subst hpv
    rw [htr]
    simp only [List.map_map]
    rfl

lemma set_price_cm3_60 :
    set_settlement_price cm3 (60 : ℚ) = (Except.ok (quantizeUp2 60), cm3w) := by
  unfold set_settlement_price
  rw [if_neg (by simp [cm3, baseMarket]), if_neg (by simp [cm3, baseMarket]),
    if_neg (by norm_num)]
  rfl

/-- C3 witness: setting price 60 on a CLOSED market with unset price
succeeds and stores the quantized price with cleared flags. -/
theorem claim3_witness :
    quantizeUp2 (60 : ℚ) = quantizeUp2 60 ∧
    cm3w.settlement_price = some (quantizeUp2 60) ∧
    cm3w.settlement_preview_calculated = false ∧
    cm3w.settlement_confirmed = false :=
  (claim3_price_validation_round_up cm3 60).2.1 (quantizeUp2 60) cm3w set_price_cm3_60

/-- C3 counterexample: the price 5.001 is stored as 5.01 (Decimal ROUND_UP,
away from zero), while the round-half-up value named by the claim is 5.00,
so the stored value differs from round-half-up. -/
theorem claim3_counterexample :
    set_settlement_price cm3 ((5001 : ℚ) / 1000) =
      (Except.ok ((501 : ℚ) / 100),
       { cm3 with
         settlement_price := some ((501 : ℚ) / 100)
         settlement_preview_calculated := false
         settlement_confirmed := false }) ∧
    roundHalfUp2 ((5001 : ℚ) / 1000) = 5 ∧
    ((501 : ℚ) / 100) ≠ 5 := by
  have hq : quantizeUp2 ((5001 : ℚ) / 1000) = (501 : ℚ) / 100 := by
    unfold quantizeUp2
    rw [if_pos (by norm_num)]
    rw [show ((5001 : ℚ) / 1000 * 100) = (5001 : ℚ) / 10 by norm_num]
    rw [show (⌈(5001 : ℚ) / 10⌉ : ℤ) = 501 by rw [Int.ceil_eq_iff] ; norm_num]
    norm_num
  have hr : roundHalfUp2 ((5001 : ℚ) / 1000) = 5 := by
    unfold roundHalfUp2
    rw [show ((5001 : ℚ) / 1000 * 100 + 1 / 2) = (2503 : ℚ) / 5 by norm_num]
    rw [show (⌊(2503 : ℚ) / 5⌋ : ℤ) = 500 by rw [Int.floor_eq_iff] ; norm_num]
    norm_num
  refine ⟨?_, hr, by norm_num⟩
  norm_num [set_settlement_price, cm3, baseMarket, hq]

/-- C4 (amended): on a CREATED market with a closed bidding window and at
least one positive spread bid, and while the current time is still before
trade_close, activation succeeds with the bid of minimal width (earliest
bid_time among equal minimal widths), sets the final spread and the market
maker from that bid and moves the status to OPEN.  (When trade_close has
already passed, the save-time auto-close immediately moves the market to
CLOSED instead; see the counterexample.) -/
theorem claim4_activation_best_bid (m : Market) (now : ℤ)
    (hs : should_auto_activate m now = true)
    (hpos : ∀ b ∈ m.spread_bids, 0 < b.spread_low ∧ b.spread_low < b.spread_high)
    (htc : now < m.trading_close) :
    ∃ wb m', auto_activate_market m now = (Except.ok wb, m') ∧
      wb ∈ m.spread_bids ∧
      (∀ b ∈ m.spread_bids, wb.spread_width ≤ b.spread_width) ∧
      (∀ b ∈ m.spread_bids, b.spread_width = wb.spread_width →
        wb.bid_time ≤ b.bid_time) ∧
      m'.final_spread_low = some wb.spread_low ∧
      m'.final_spread_high = some wb.spread_high ∧
      m'.market_maker = some wb.user ∧
      m'.status = Status.OPEN := by
  obtain ⟨wb, hwb, heq⟩ := activation_spec m now hs hpos htc
  obtain ⟨hmem, hmin⟩ := best_spread_bid_spec hwb
  exact ⟨wb, _, heq, hmem, fun b hb => (hmin b hb).1, fun b hb => (hmin b hb).2,
    rfl, rfl, rfl, rfl⟩

/-- C4 witness: a market with one bid (45, 55) activates at time 1500 with
that bid. -/
theorem claim4_witness :
    should_auto_activate cm4 1500 = true ∧
    (∀ b ∈ cm4.spread_bids, 0 < b.spread_low ∧ b.spread_low < b.spread_high) ∧
    ((1500 : ℤ) < cm4.trading_close) ∧
    (∃ wb m', auto_activate_market cm4 1500 = (Except.ok wb, m') ∧
      wb ∈ cm4.spread_bids ∧
      (∀ b ∈ cm4.spread_bids, wb.spread_width ≤ b.spread_width) ∧
      (∀ b ∈ cm4.spread_bids, b.spread_width = wb.spread_width →
        wb.bid_time ≤ b.bid_time) ∧
      m'.final_spread_low = some wb.spread_low ∧
      m'.final_spread_high = some wb.spread_high ∧
      m'.market_maker = some wb.user ∧
      m'.status = Status.OPEN) :=
  ⟨by decide, by decide, by decide,
    claim4_activation_best_bid cm4 1500 (by decide) (by decide) (by decide)⟩

/-- C4 counterexample: the same market activated after trade_close has
passed (time 3000, trade_close 2000) reports success, but the save hook
auto-closes it, so the resulting status is CLOSED and not OPEN as the
claim requires for every market with a closed bidding window and a bid. -/
theorem claim4_counterexample :
    okB (auto_activate_market cm4 3000).1 = true ∧
    (auto_activate_market cm4 3000).2.status = Status.CLOSED ∧
    Status.CLOSED ≠ Status.OPEN := by
  refine ⟨?_, ?_, by decide⟩ <;>
    norm_num [auto_activate_market, should_auto_activate, best_spread_bid, pyMinBid,
      marketSaveHook, should_auto_close, truthyQ, truthyZ, fixFinals, cm4, baseMarket,
      bid1, okB]

/-- C5: on a CREATED market with zero bids and a closed bidding window the
delay succeeds, advancing both window timestamps by exactly one day
(86400 s) and preserving their gap; it fails with the not-eligible error
when a bid exists, when the status is not CREATED, or when a final spread
is already set; and N successive successful delays shift both timestamps
by exactly N days. -/
theorem claim5_delay_one_day (m : Market) (now : ℤ) (ts : List ℤ) :
    (should_delay_for_no_bids m now = true →
      delay_market_for_no_bids m now =
        (Except.ok (),
         { m with
           spread_bidding_close_trading_open :=
             m.spread_bidding_close_trading_open + oneDay
           trading_close := m.trading_close + oneDay }) ∧
      (delay_market_for_no_bids m now).2.trading_close -
          (delay_market_for_no_bids m now).2.spread_bidding_close_trading_open =
        m.trading_close - m.spread_bidding_close_trading_open) ∧
    (m.spread_bids ≠ [] →
      (delay_market_for_no_bids m now).1 =
        Except.error "Market is not eligible for delay") ∧
    (m.status ≠ Status.CREATED →
      (delay_market_for_no_bids m now).1 =
        Except.error "Market is not eligible for delay") ∧
    (m.final_spread_low ≠ none →
      (delay_market_for_no_bids m now).1 =
        Except.error "Market is not eligible for delay") ∧
    (∀ m', delaysOk m ts = some m' →
      m'.spread_bidding_close_trading_open =
        m.spread_bidding_close_trading_open + (ts.length : ℤ) * oneDay ∧
      m'.trading_close = m.trading_close + (ts.length : ℤ) * oneDay) := by
  refine ⟨?_, ?_, ?_, ?_, fun m' h => delaysOk_shift ts m m' h⟩
  · intro hs
    have heq : delay_market_for_no_bids m now =
        (Except.ok (),
         { m with
           spread_bidding_close_trading_open :=
             m.spread_bidding_close_trading_open + oneDay
           trading_close := m.trading_close + oneDay }) := by
      unfold delay_market_for_no_bids
      rw [if_neg (by simp [hs])]
    refine ⟨heq, ?_⟩
    rw [heq]
    simp
  · intro hbids
    unfold delay_market_for_no_bids
    rw [if_pos]
    simp only [should_delay_for_no_bids, decide_eq_false_iff_not]
    intro hc
    exact hbids hc.2.2.1
  · intro hst
    unfold delay_market_for_no_bids
    rw [if_pos]
    simp only [should_delay_for_no_bids, decide_eq_false_iff_not]
    intro hc
    exact hst hc.1
  · intro hfin
    unfold delay_market_for_no_bids
    rw [if_pos]
    simp only [should_delay_for_no_bids, decide_eq_false_iff_not]
    intro hc
    exact hfin hc.2.2.2.1

/-- C5 witness: a bid-less market delays by one day; with a bid it fails;
two successive successful delays shift both timestamps by two days. -/
theorem claim5_witness :
    should_delay_for_no_bids dm5 1500 = true ∧
    delay_market_for_no_bids dm5 1500 = (Except.ok (), dm5d) ∧
    (delay_market_for_no_bids dm5bid 1500).1 =
      Except.error "Market is not eligible for delay" ∧
    delaysOk dm5 [1500, 90000] = some dm5dd ∧
    dm5dd.spread_bidding_close_trading_open =
      dm5.spread_bidding_close_trading_open +
        ((([1500, 90000] : List ℤ).length : ℤ)) * oneDay ∧
    dm5dd.trading_close =
      dm5.trading_close + ((([1500, 90000] : List ℤ).length : ℤ)) * oneDay := by
  have h := claim5_delay_one_day dm5 1500 ([1500, 90000] : List ℤ)
  have hbid := claim5_delay_one_day dm5bid 1500 ([] : List ℤ)
  have hiter : delaysOk dm5 [1500, 90000] = some dm5dd := by
    norm_num [delaysOk, delay_market_for_no_bids, should_delay_for_no_bids, dm5,
      dm5dd, baseMarket, oneDay]
  refine ⟨by decide, ?_, hbid.2.1 (by decide), hiter,
    (h.2.2.2.2 dm5dd hiter).1, (h.2.2.2.2 dm5dd hiter).2⟩
  exact (h.1 (by decide)).1

lemma cancel_trade_cm6p :
    cancel_trade cm6p cu6p 1500 = (Except.ok (), cm6c, cu6p) := by
  norm_num [cancel_trade, is_trading_active, cm6p, cm6c, openMkt, baseMarket,
    cu6p, u2, t6]

/-- C6 (amended): trade cancellation succeeds only while trading is active
and then removes the trade of the user, but it does not credit the cost
debited at placement back to the balance (the user object is returned
unchanged); it fails with the no-trade error when the user holds no trade
and with the market-closed error when trading is not active. -/
theorem claim6_cancel_without_refund (m : Market) (u : User) (now : ℤ) :
    (is_trading_active m now = false →
      cancel_trade m u now =
        (Except.error "Cannot cancel trade - market is closed", m, u)) ∧
    (is_trading_active m now = true →
      m.trades.find? (fun t => t.user == u.id) = none →
      cancel_trade m u now =
        (Except.error "No trade found for this user on this market", m, u)) ∧
    (∀ m' u', cancel_trade m u now = (Except.ok (), m', u') →
      m'.trades = m.trades.filter (fun t => !(t.user == u.id)) ∧ u' = u) := by
  refine ⟨?_, ?_, ?_⟩
  · intro hita
    unfold cancel_trade
    rw [if_pos hita]
  · intro hita hfind
    unfold cancel_trade
    rw [if_neg (by simp [hita]), hfind]
  · intro m' u' hok
    unfold cancel_trade at hok
    split_ifs at hok with h1
    · exact Except.noConfusion (Prod.mk.injEq _ _ _ _ ▸ hok).1
    · split at hok
      · exact Except.noConfusion (Prod.mk.injEq _ _ _ _ ▸ hok).1
      · simp only [Prod.mk.injEq] at hok
        exact ⟨hok.2.1.symm ▸ rfl, hok.2.2.symm⟩

/-- C6 witness: cancellation on a CLOSED market fails; with no trade it
fails with the no-trade error; a successful cancellation removes the trade
and returns the user (and balance) unchanged. -/
theorem claim6_witness :
    is_trading_active cm3 1500 = false ∧
    cancel_trade cm3 u2 1500 =
      (Except.error "Cannot cancel trade - market is closed", cm3, u2) ∧
    is_trading_active openMkt 1500 = true ∧
    cancel_trade openMkt u2 1500 =
      (Except.error "No trade found for this user on this market", openMkt, u2) ∧
    (cm6c.trades = cm6p.trades.filter (fun t => !(t.user == cu6p.id)) ∧
      cu6p = cu6p) := by
  refine ⟨by decide, (claim6_cancel_without_refund cm3 u2 1500).1 (by decide),
    by decide, (claim6_cancel_without_refund openMkt u2 1500).2.1 (by decide) (by decide),
    (claim6_cancel_without_refund cm6p cu6p 1500).2.2 cm6c cu6p cancel_trade_cm6p⟩

/-- C6 counterexample: placing a LONG trade debits 60 from the balance
(1000 to 940); the subsequent successful cancellation removes the trade
but returns the user with balance still 940, not 1000, so the cost is not
credited back as the claim states. -/
theorem claim6_counterexample :
    place_trade openMkt u2 Position.LONG 1 1500 = (Except.ok t6, cm6p, cu6p) ∧
    cancel_trade cm6p cu6p 1500 = (Except.ok (), cm6c, cu6p) ∧
    u2.profile = some { balance := 1000, is_verified := true } ∧
    cu6p.profile = some { balance := 940, is_verified := true } ∧
    (940 : ℚ) ≠ (1000 : ℚ) := by
  refine ⟨place_trade_openMkt_u2, cancel_trade_cm6p, rfl, rfl, by norm_num⟩

lemma claim7_failure_frame (m : Market) (users : List User) (confirmed : Bool)
    (now : ℤ) :
    (m.settlement_preview_calculated = false →
      execute_settlement m users confirmed now =
        (Except.error "Must calculate settlement preview before executing", m, users)) ∧
    (m.settlement_preview_calculated = true → confirmed = false →
      execute_settlement m users confirmed now =
        (Except.error "Admin confirmation required for settlement execution", m, users)) ∧
    (m.settlement_preview_calculated = true → confirmed = true →
      m.status = Status.SETTLED →
      execute_settlement m users confirmed now =
        (Except.error "Market already settled", m, users)) := by
  refine ⟨?_, ?_, ?_⟩
  · intro h
    unfold execute_settlement
    rw [if_pos (by simp [h])]
  · intro h hc
    unfold execute_settlement
    rw [if_neg (by simp [h]), if_pos (by simp [hc])]
  · intro h hc hst
    unfold execute_settlement
    rw [if_neg (by simp [h]), if_neg (by simp [hc]), if_pos hst]

/-- C7: the three settlement guards fail as the claim states (preview
required, confirmation required, already settled), but on a CLOSED market
with one LONG trade at 55, settlement price 60 and the preview flag set,
a confirmed execution fails with the trading-window ValidationError raised
by Trade.clean inside trade.save, and by then the balance of the trader
(user 2) has already been credited from 1000 to 1005: a failing
execute_settlement mutates a user balance, contradicting the claim that
every failure leaves balances untouched. -/
theorem claim7_settlement_nonatomic_failure :
    (execute_settlement { cm7 with settlement_preview_calculated := false }
        us7 true 3000).1 =
      Except.error "Must calculate settlement preview before executing" ∧
    (execute_settlement cm7 us7 false 3000).1 =
      Except.error "Admin confirmation required for settlement execution" ∧
    (execute_settlement { cm7 with status := Status.SETTLED } us7 true 3000).1 =
      Except.error "Market already settled" ∧
    (execute_settlement cm7 us7 true 3000).1 =
      Except.error "Market is not open for trading" ∧
    balanceOf us7 2 = some 1000 ∧
    balanceOf (execute_settlement cm7 us7 true 3000).2.2 2 = some 1005 := by
  refine ⟨?_, ?_, ?_, ?_, by decide, ?_⟩
  · rw [(claim7_failure_frame _ us7 true 3000).1 rfl]
  · rw [(claim7_failure_frame cm7 us7 false 3000).2.1 rfl rfl]
  · rw [(claim7_failure_frame _ us7 true 3000).2.2 rfl rfl rfl]
  · norm_num [execute_settlement, calculate_settlement_preview, settleTrades,
      trade_clean, is_trading_active, usersFind, applyDelta, previewEntry,
      trade_pnl, quantizeUp2, cm7, us7, u2, mm50, t7, baseMarket]
    simp
  · norm_num [execute_settlement, calculate_settlement_preview, settleTrades,
      trade_clean, is_trading_active, usersFind, applyDelta, balanceOf,
      previewEntry, trade_pnl, quantizeUp2, cm7, us7, u2, mm50, t7, baseMarket]
    simp [balanceOf, usersFind]

lemma place_trade_ok_conditions (m : Market) (u : User) (pos : Position)
    (qty now : ℤ)
    (hok : okB (place_trade m u pos qty now).1 = true) :
    is_trading_active m now = true ∧ m.market_maker ≠ some u.id ∧
    u.is_staff = false ∧ u.is_superuser = false ∧ m.created_by ≠ u.id := by
  unfold place_trade at hok
  repeat' split at hok
  all_goals try exact trade_clean_ok (by assumption)
  all_goals try simp_all [okB]
  all_goals (revert hok; split <;> simp_all [okB, apply_ite, ite_eq_iff])

/-- C8 (amended): every successfully admitted trade is placed while
trading is active by a user who is neither the market maker, nor an
administrator, nor the market creator, and violating any of these
conditions makes the placement fail; the placement path does not check
the verification flag of the user (see the counterexample). -/
theorem claim8_trade_admission_conditions (m : Market) (u : User) (pos : Position)
    (qty now : ℤ) :
    (okB (place_trade m u pos qty now).1 = true →
      is_trading_active m now = true ∧ m.market_maker ≠ some u.id ∧
      u.is_staff = false ∧ u.is_superuser = false ∧ m.created_by ≠ u.id) ∧
    (is_trading_active m now = false →
      okB (place_trade m u pos qty now).1 = false) ∧
    (m.market_maker = some u.id → okB (place_trade m u pos qty now).1 = false) ∧
    (u.is_staff = true → okB (place_trade m u pos qty now).1 = false) ∧
    (u.is_superuser = true → okB (place_trade m u pos qty now).1 = false) ∧
    (m.created_by = u.id → okB (place_trade m u pos qty now).1 = false) := by
  have hmain := place_trade_ok_conditions m u pos qty now
  refine ⟨hmain, ?_, ?_, ?_, ?_, ?_⟩
  · intro hviol
    cases hcase : okB (place_trade m u pos qty now).1 with
    | false => rfl
    | true =>
      obtain ⟨c1, _, _, _, _⟩ := hmain hcase
      rw [hviol] at c1
      exact absurd c1 (by simp)
  · intro hviol
    cases hcase : okB (place_trade m u pos qty now).1 with
    | false => rfl
    | true =>
      obtain ⟨_, c2, _, _, _⟩ := hmain hcase
      exact absurd hviol c2
  · intro hviol
    cases hcase : okB (place_trade m u pos qty now).1 with
    | false => rfl
    | true =>
      obtain ⟨_, _, c3, _, _⟩ := hmain hcase
      rw [hviol] at c3
      exact absurd c3 (by simp)
  · intro hviol
    cases hcase : okB (place_trade m u pos qty now).1 with
    | false => rfl
    | true =>
      obtain ⟨_, _, _, c4, _⟩ := hmain hcase
      rw [hviol] at c4
      exact absurd c4 (by simp)
  · intro hviol
    cases hcase : okB (place_trade m u pos qty now).1 with
    | false => rfl
    | true =>
      obtain ⟨_, _, _, _, c5⟩ := hmain hcase
      exact absurd hviol c5

/-- C8 witness: an admitted trade on an OPEN market inside the trading
window by a non-admin user who is neither the creator nor the maker. -/
theorem claim8_witness :
    okB (place_trade openMkt u2 Position.LONG 1 1500).1 = true ∧
    (is_trading_active openMkt 1500 = true ∧ openMkt.market_maker ≠ some u2.id ∧
     u2.is_staff = false ∧ u2.is_superuser = false ∧ openMkt.created_by ≠ u2.id) := by
  have hok : okB (place_trade openMkt u2 Position.LONG 1 1500).1 = true := by
    rw [place_trade_openMkt_u2]
    rfl
  exact ⟨hok,
    (claim8_trade_admission_conditions openMkt u2 Position.LONG 1 1500).1 hok⟩

/-- C8 counterexample: an unverified user (profile is_verified false) who
meets the other conditions is admitted, so admission does not imply the
user is verified as the claim states. -/
theorem claim8_counterexample :
    okB (place_trade openMkt cu8 Position.LONG 1 1500).1 = true ∧
    cu8.profile = some { balance := 1000, is_verified := false } := by
  constructor
  · norm_num [place_trade, trade_clean, is_trading_active, openMkt, baseMarket,
      cu8, okB]
  · rfl

/-- C9 (amended): activation changes only the final spread fields, the
market-maker fields and the status, and additionally reassigns the
creator reference to the winning bidder (the code comment says the winner
becomes the market maker); premise, unit_price, initial_spread, the
timestamps, the settlement fields, the bids and the trades are unchanged. -/
theorem claim9_activation_frame_created_by (m : Market) (now : ℤ)
    (hs : should_auto_activate m now = true)
    (hpos : ∀ b ∈ m.spread_bids, 0 < b.spread_low ∧ b.spread_low < b.spread_high)
    (htc : now < m.trading_close) :
    ∃ wb m', auto_activate_market m now = (Except.ok wb, m') ∧
      wb ∈ m.spread_bids ∧
      m'.premise = m.premise ∧
      m'.unit_price = m.unit_price ∧
      m'.initial_spread = m.initial_spread ∧
      m'.created_by = wb.user ∧
      m'.spread_bidding_open = m.spread_bidding_open ∧
      m'.spread_bidding_close_trading_open = m.spread_bidding_close_trading_open ∧
      m'.trading_close = m.trading_close ∧
      m'.outcome = m.outcome ∧
      m'.settlement_price = m.settlement_price ∧
      m'.settled_at = m.settled_at ∧
      m'.settlement_preview_calculated = m.settlement_preview_calculated ∧
      m'.settlement_confirmed = m.settlement_confirmed ∧
      m'.spread_bids = m.spread_bids ∧
      m'.trades = m.trades ∧
      m'.final_spread_low = some wb.spread_low ∧
      m'.final_spread_high = some wb.spread_high ∧
      m'.market_maker = some wb.user ∧
      m'.market_maker_spread_low = some (wb.spread_low : ℚ) ∧
      m'.market_maker_spread_high = some (wb.spread_high : ℚ) ∧
      m'.status = Status.OPEN := by
  obtain ⟨wb, hwb, heq⟩ := activation_spec m now hs hpos htc
  have hmem := (best_spread_bid_spec hwb).1
  exact ⟨wb, _, heq, hmem, rfl, rfl, rfl, rfl, rfl, rfl, rfl, rfl, rfl, rfl, rfl,
    rfl, rfl, rfl, rfl, rfl, rfl, rfl, rfl, rfl⟩

/-- C9 witness: activating the one-bid market keeps premise, unit_price
and initial_spread, and sets the bidder (user 2) as maker and creator. -/
theorem claim9_witness :
    should_auto_activate cm4 1500 = true ∧
    (∀ b ∈ cm4.spread_bids, 0 < b.spread_low ∧ b.spread_low < b.spread_high) ∧
    ((1500 : ℤ) < cm4.trading_close) ∧
    (∃ wb m', auto_activate_market cm4 1500 = (Except.ok wb, m') ∧
      wb ∈ cm4.spread_bids ∧
      m'.premise = cm4.premise ∧
      m'.unit_price = cm4.unit_price ∧
      m'.initial_spread = cm4.initial_spread ∧
      m'.created_by = wb.user ∧
      m'.spread_bidding_open = cm4.spread_bidding_open ∧
      m'.spread_bidding_close_trading_open = cm4.spread_bidding_close_trading_open ∧
      m'.trading_close = cm4.trading_close ∧
      m'.outcome = cm4.outcome ∧
      m'.settlement_price = cm4.settlement_price ∧
      m'.settled_at = cm4.settled_at ∧
      m'.settlement_preview_calculated = cm4.settlement_preview_calculated ∧
      m'.settlement_confirmed = cm4.settlement_confirmed ∧
      m'.spread_bids = cm4.spread_bids ∧
      m'.trades = cm4.trades ∧
      m'.final_spread_low = some wb.spread_low ∧
      m'.final_spread_high = some wb.spread_high ∧
      m'.market_maker = some wb.user ∧
      m'.market_maker_spread_low = some (wb.spread_low : ℚ) ∧
      m'.market_maker_spread_high = some (wb.spread_high : ℚ) ∧
      m'.status = Status.OPEN) :=
  ⟨by decide, by decide, by decide,
    claim9_activation_frame_created_by cm4 1500 (by decide) (by decide) (by decide)⟩

/-- C9 counterexample: activation overwrites created_by: the market was
created by user 100, the winning bid belongs to user 2, and after a
successful activation created_by is 2, so the creator reference is not
left unchanged as the claim states. -/
theorem claim9_counterexample :
    okB (auto_activate_market cm4 1500).1 = true ∧
    cm4.created_by = 100 ∧
    (auto_activate_market cm4 1500).2.created_by = 2 ∧
    (2 : ℕ) ≠ 100 := by
  refine ⟨?_, by decide, ?_, by decide⟩ <;>
    norm_num [auto_activate_market, should_auto_activate, best_spread_bid, pyMinBid,
      marketSaveHook, should_auto_close, truthyQ, truthyZ, fixFinals, cm4, baseMarket,
      bid1, okB]

/-- C10: the tightness rules the claim describes do exist in
SpreadBidCreateSerializer.validate, but they are dead code: the window
check reads the nonexistent Market.spread_bidding_close attribute, so
every bid attempt either fails one of the earlier guards or raises
AttributeError before reaching the tightness checks, and no spread bid is
ever accepted through the bid-placement endpoint.  In particular, on a
market that already holds a bid (best width 20), a strictly tighter bid
(45, 55) by a verified non-creator inside the bidding window is not
accepted but crashes with the AttributeError, while before the window the
chain short-circuits into the ValidationError. -/
theorem claim10_bid_validation_crashes :
    (∀ (m : Market) (u : User) (low high now : ℤ),
      okB (place_spread_bid m u low high now).1 = false) ∧
    (place_spread_bid cm10 u2 45 55 500).1 =
      Except.error "AttributeError: Market object has no attribute spread_bidding_close" ∧
    (place_spread_bid { cm10 with spread_bidding_open := 600 } u2 45 55 500).1 =
      Except.error "Spread bidding is not currently active for this market" := by
  refine ⟨?_, rfl, rfl⟩
  intro m u low high now
  unfold place_spread_bid
  cases hv : validate_spread_bid m u low high now with
  | error e => rfl
  | ok v =>
    exfalso
    unfold validate_spread_bid at hv
    split_ifs at hv
